import Mathlib

set_option maxRecDepth 4000

/-!
Formal model of the AgriSoil hybrid recommendation core
(`backend/app/services/rule_engine.py` and
`backend/app/services/ml_service.py`).

Conventions of the shallow embedding:
* Python floats are modelled as rationals (`ℚ`); `round(x, 1)` is modelled
  by `round1` (round half towards the nearest, ties cannot occur for the
  validation scores produced here since their denominators divide 3).
* Human-readable message strings are modelled by the inductive type `Msg`,
  one constructor per distinct message template of the source, carrying the
  template's interpolated payloads.  The emoji-prefix strip
  `msg.replace("⚠️ ", "")` performed on nutrient warnings does not change
  which template a message comes from, so it is the identity here.
* Python dictionaries returned by `validate_crop` are modelled by
  structures; keys that are absent in one of the return paths become
  `Option` fields (`none` = key absent / value `None`), and the empty
  `validations` dict of the no-rules path is `none`.
* Python's `list.sort(key=..., reverse=True)` is a stable descending sort;
  it is modelled by `List.insertionSort` with the relation
  `fun a b => score b ≤ score a`, which is extensionally the unique
  stable descending sort.
-/

namespace AgriSoil

/-- `NutrientLevel` enum of the source. -/
inductive NutrientLevel where
  | low
  | moderate
  | high
deriving DecidableEq, Repr

/-- `CropRule` dataclass of the source. -/
structure CropRule where
  crop_name : String
  ph_min : ℚ
  ph_max : ℚ
  ph_optimal_min : ℚ
  ph_optimal_max : ℚ
  preferred_soils : List String
  acceptable_soils : List String
  min_rainfall : ℚ
  max_rainfall : ℚ
  optimal_rainfall_min : ℚ
  optimal_rainfall_max : ℚ
  min_temperature : ℚ
  max_temperature : ℚ
  optimal_temp_min : ℚ
  optimal_temp_max : ℚ
  nitrogen_need : NutrientLevel
  phosphorus_need : NutrientLevel
  potassium_need : NutrientLevel
  min_humidity : ℚ
  max_humidity : ℚ
  description : String
deriving DecidableEq, Repr

/-- The `CROP_RULES` table, in source (insertion) order.  A Python dict
preserves insertion order, so an ordered association list is the faithful
model. -/
def CROP_RULES : List (String × CropRule) := [
  ("rice", {
    crop_name := "Rice",
    ph_min := 5.0, ph_max := 8.0, ph_optimal_min := 5.5, ph_optimal_max := 6.5,
    preferred_soils := ["Clayey", "Loamy", "Riverine Alluvial", "Coastal Alluvial"],
    acceptable_soils := ["Silty", "Black Cotton"],
    min_rainfall := 150, max_rainfall := 300, optimal_rainfall_min := 180, optimal_rainfall_max := 250,
    min_temperature := 20, max_temperature := 40, optimal_temp_min := 22, optimal_temp_max := 32,
    nitrogen_need := .high, phosphorus_need := .moderate, potassium_need := .moderate,
    min_humidity := 70, max_humidity := 100,
    description := "Paddy crop requiring flooded conditions and high water availability" }),
  ("wheat", {
    crop_name := "Wheat",
    ph_min := 5.5, ph_max := 8.0, ph_optimal_min := 6.0, ph_optimal_max := 7.0,
    preferred_soils := ["Loamy", "Clayey"],
    acceptable_soils := ["Silty"],
    min_rainfall := 50, max_rainfall := 150, optimal_rainfall_min := 75, optimal_rainfall_max := 100,
    min_temperature := 10, max_temperature := 30, optimal_temp_min := 12, optimal_temp_max := 25,
    nitrogen_need := .high, phosphorus_need := .moderate, potassium_need := .low,
    min_humidity := 50, max_humidity := 85,
    description := "Major cereal crop preferring cool and dry conditions" }),
  ("maize", {
    crop_name := "Maize",
    ph_min := 5.5, ph_max := 8.0, ph_optimal_min := 5.8, ph_optimal_max := 7.0,
    preferred_soils := ["Loamy", "Sandy"],
    acceptable_soils := ["Clayey", "Silty"],
    min_rainfall := 60, max_rainfall := 120, optimal_rainfall_min := 80, optimal_rainfall_max := 110,
    min_temperature := 18, max_temperature := 35, optimal_temp_min := 21, optimal_temp_max := 30,
    nitrogen_need := .high, phosphorus_need := .moderate, potassium_need := .moderate,
    min_humidity := 50, max_humidity := 80,
    description := "Versatile grain crop adaptable to various conditions" }),
  ("cotton", {
    crop_name := "Cotton",
    ph_min := 5.5, ph_max := 8.5, ph_optimal_min := 6.0, ph_optimal_max := 7.5,
    preferred_soils := ["Clayey", "Loamy"],
    acceptable_soils := ["Silty"],
    min_rainfall := 50, max_rainfall := 150, optimal_rainfall_min := 80, optimal_rainfall_max := 120,
    min_temperature := 20, max_temperature := 40, optimal_temp_min := 25, optimal_temp_max := 35,
    nitrogen_need := .high, phosphorus_need := .moderate, potassium_need := .high,
    min_humidity := 40, max_humidity := 70,
    description := "Fiber crop requiring warm temperatures and moderate water" }),
  ("jute", {
    crop_name := "Jute",
    ph_min := 5.0, ph_max := 8.0, ph_optimal_min := 6.0, ph_optimal_max := 7.0,
    preferred_soils := ["Loamy", "Clayey"],
    acceptable_soils := ["Silty"],
    min_rainfall := 150, max_rainfall := 250, optimal_rainfall_min := 170, optimal_rainfall_max := 230,
    min_temperature := 25, max_temperature := 38, optimal_temp_min := 27, optimal_temp_max := 35,
    nitrogen_need := .high, phosphorus_need := .moderate, potassium_need := .moderate,
    min_humidity := 70, max_humidity := 90,
    description := "Fiber crop requiring warm and humid conditions" }),
  ("coffee", {
    crop_name := "Coffee",
    ph_min := 4.5, ph_max := 6.5, ph_optimal_min := 5.0, ph_optimal_max := 6.0,
    preferred_soils := ["Loamy", "Forest Loam", "Red Loam", "Laterite"],
    acceptable_soils := ["Clayey", "Silty", "Brown Hydromorphic"],
    min_rainfall := 150, max_rainfall := 300, optimal_rainfall_min := 180, optimal_rainfall_max := 250,
    min_temperature := 15, max_temperature := 30, optimal_temp_min := 18, optimal_temp_max := 25,
    nitrogen_need := .moderate, phosphorus_need := .moderate, potassium_need := .high,
    min_humidity := 60, max_humidity := 90,
    description := "Plantation crop preferring shade and consistent moisture" }),
  ("banana", {
    crop_name := "Banana",
    ph_min := 5.5, ph_max := 7.5, ph_optimal_min := 6.0, ph_optimal_max := 7.0,
    preferred_soils := ["Loamy", "Riverine Alluvial", "Coastal Alluvial"],
    acceptable_soils := ["Clayey", "Silty", "Red Loam", "Laterite"],
    min_rainfall := 100, max_rainfall := 250, optimal_rainfall_min := 150, optimal_rainfall_max := 200,
    min_temperature := 20, max_temperature := 35, optimal_temp_min := 25, optimal_temp_max := 32,
    nitrogen_need := .high, phosphorus_need := .moderate, potassium_need := .high,
    min_humidity := 70, max_humidity := 90,
    description := "Tropical fruit requiring consistent warmth and moisture" }),
  ("mango", {
    crop_name := "Mango",
    ph_min := 5.5, ph_max := 7.5, ph_optimal_min := 6.0, ph_optimal_max := 7.0,
    preferred_soils := ["Loamy", "Sandy", "Red Loam", "Laterite"],
    acceptable_soils := ["Clayey", "Forest Loam", "Brown Hydromorphic"],
    min_rainfall := 75, max_rainfall := 250, optimal_rainfall_min := 100, optimal_rainfall_max := 200,
    min_temperature := 21, max_temperature := 45, optimal_temp_min := 24, optimal_temp_max := 35,
    nitrogen_need := .moderate, phosphorus_need := .low, potassium_need := .moderate,
    min_humidity := 40, max_humidity := 80,
    description := "Tropical fruit tree requiring hot temperatures and seasonal rains" }),
  ("apple", {
    crop_name := "Apple",
    ph_min := 5.5, ph_max := 7.0, ph_optimal_min := 6.0, ph_optimal_max := 6.8,
    preferred_soils := ["Loamy"],
    acceptable_soils := ["Sandy", "Silty"],
    min_rainfall := 100, max_rainfall := 200, optimal_rainfall_min := 125, optimal_rainfall_max := 175,
    min_temperature := 8, max_temperature := 28, optimal_temp_min := 10, optimal_temp_max := 22,
    nitrogen_need := .moderate, phosphorus_need := .low, potassium_need := .moderate,
    min_humidity := 50, max_humidity := 80,
    description := "Temperate fruit requiring cold winters for dormancy" }),
  ("grapes", {
    crop_name := "Grapes",
    ph_min := 5.5, ph_max := 8.0, ph_optimal_min := 6.0, ph_optimal_max := 7.0,
    preferred_soils := ["Loamy", "Sandy"],
    acceptable_soils := ["Clayey"],
    min_rainfall := 50, max_rainfall := 150, optimal_rainfall_min := 75, optimal_rainfall_max := 100,
    min_temperature := 15, max_temperature := 40, optimal_temp_min := 20, optimal_temp_max := 35,
    nitrogen_need := .moderate, phosphorus_need := .low, potassium_need := .high,
    min_humidity := 40, max_humidity := 70,
    description := "Vine fruit preferring warm, dry conditions" }),
  ("orange", {
    crop_name := "Orange",
    ph_min := 5.0, ph_max := 8.0, ph_optimal_min := 5.5, ph_optimal_max := 7.0,
    preferred_soils := ["Loamy", "Sandy"],
    acceptable_soils := ["Clayey"],
    min_rainfall := 100, max_rainfall := 200, optimal_rainfall_min := 120, optimal_rainfall_max := 180,
    min_temperature := 13, max_temperature := 38, optimal_temp_min := 20, optimal_temp_max := 30,
    nitrogen_need := .moderate, phosphorus_need := .moderate, potassium_need := .moderate,
    min_humidity := 50, max_humidity := 80,
    description := "Citrus fruit requiring subtropical climate" }),
  ("papaya", {
    crop_name := "Papaya",
    ph_min := 5.5, ph_max := 7.5, ph_optimal_min := 6.0, ph_optimal_max := 7.0,
    preferred_soils := ["Loamy", "Sandy"],
    acceptable_soils := ["Silty"],
    min_rainfall := 100, max_rainfall := 250, optimal_rainfall_min := 150, optimal_rainfall_max := 200,
    min_temperature := 20, max_temperature := 38, optimal_temp_min := 25, optimal_temp_max := 32,
    nitrogen_need := .high, phosphorus_need := .moderate, potassium_need := .high,
    min_humidity := 60, max_humidity := 85,
    description := "Tropical fruit requiring warm temperatures year-round" }),
  ("coconut", {
    crop_name := "Coconut",
    ph_min := 5.0, ph_max := 8.0, ph_optimal_min := 5.5, ph_optimal_max := 7.0,
    preferred_soils := ["Sandy", "Loamy", "Coastal Alluvial", "Laterite", "Red Loam"],
    acceptable_soils := ["Clayey", "Riverine Alluvial"],
    min_rainfall := 150, max_rainfall := 300, optimal_rainfall_min := 180, optimal_rainfall_max := 250,
    min_temperature := 20, max_temperature := 35, optimal_temp_min := 25, optimal_temp_max := 32,
    nitrogen_need := .moderate, phosphorus_need := .low, potassium_need := .high,
    min_humidity := 70, max_humidity := 95,
    description := "Coastal palm preferring sandy soils and high humidity" }),
  ("chickpea", {
    crop_name := "Chickpea",
    ph_min := 5.5, ph_max := 8.5, ph_optimal_min := 6.0, ph_optimal_max := 7.5,
    preferred_soils := ["Loamy", "Clayey"],
    acceptable_soils := ["Sandy", "Silty"],
    min_rainfall := 40, max_rainfall := 100, optimal_rainfall_min := 60, optimal_rainfall_max := 80,
    min_temperature := 10, max_temperature := 30, optimal_temp_min := 15, optimal_temp_max := 25,
    nitrogen_need := .low, phosphorus_need := .moderate, potassium_need := .low,
    min_humidity := 40, max_humidity := 70,
    description := "Pulse crop that fixes nitrogen, prefers cool and dry conditions" }),
  ("lentil", {
    crop_name := "Lentil",
    ph_min := 5.5, ph_max := 8.0, ph_optimal_min := 6.0, ph_optimal_max := 7.0,
    preferred_soils := ["Loamy", "Sandy"],
    acceptable_soils := ["Clayey", "Silty"],
    min_rainfall := 25, max_rainfall := 100, optimal_rainfall_min := 40, optimal_rainfall_max := 75,
    min_temperature := 10, max_temperature := 30, optimal_temp_min := 15, optimal_temp_max := 25,
    nitrogen_need := .low, phosphorus_need := .moderate, potassium_need := .low,
    min_humidity := 30, max_humidity := 70,
    description := "Pulse crop tolerant to dry conditions" }),
  ("pigeonpeas", {
    crop_name := "Pigeonpeas",
    ph_min := 5.0, ph_max := 8.0, ph_optimal_min := 5.5, ph_optimal_max := 7.0,
    preferred_soils := ["Loamy", "Sandy"],
    acceptable_soils := ["Clayey"],
    min_rainfall := 60, max_rainfall := 150, optimal_rainfall_min := 80, optimal_rainfall_max := 120,
    min_temperature := 18, max_temperature := 35, optimal_temp_min := 22, optimal_temp_max := 30,
    nitrogen_need := .low, phosphorus_need := .moderate, potassium_need := .low,
    min_humidity := 40, max_humidity := 80,
    description := "Drought-tolerant legume for semi-arid regions" }),
  ("mothbeans", {
    crop_name := "Mothbeans",
    ph_min := 5.0, ph_max := 8.5, ph_optimal_min := 6.0, ph_optimal_max := 7.5,
    preferred_soils := ["Sandy", "Loamy"],
    acceptable_soils := ["Clayey"],
    min_rainfall := 25, max_rainfall := 75, optimal_rainfall_min := 35, optimal_rainfall_max := 60,
    min_temperature := 24, max_temperature := 40, optimal_temp_min := 28, optimal_temp_max := 35,
    nitrogen_need := .low, phosphorus_need := .low, potassium_need := .low,
    min_humidity := 30, max_humidity := 60,
    description := "Highly drought-tolerant legume for arid regions" }),
  ("mungbean", {
    crop_name := "Mungbean",
    ph_min := 5.5, ph_max := 8.0, ph_optimal_min := 6.0, ph_optimal_max := 7.0,
    preferred_soils := ["Loamy", "Sandy"],
    acceptable_soils := ["Clayey"],
    min_rainfall := 50, max_rainfall := 100, optimal_rainfall_min := 60, optimal_rainfall_max := 85,
    min_temperature := 20, max_temperature := 38, optimal_temp_min := 25, optimal_temp_max := 32,
    nitrogen_need := .low, phosphorus_need := .moderate, potassium_need := .low,
    min_humidity := 50, max_humidity := 80,
    description := "Fast-growing pulse crop for warm conditions" }),
  ("blackgram", {
    crop_name := "Blackgram",
    ph_min := 5.5, ph_max := 8.0, ph_optimal_min := 6.0, ph_optimal_max := 7.0,
    preferred_soils := ["Loamy", "Clayey"],
    acceptable_soils := ["Sandy", "Silty"],
    min_rainfall := 60, max_rainfall := 120, optimal_rainfall_min := 75, optimal_rainfall_max := 100,
    min_temperature := 25, max_temperature := 38, optimal_temp_min := 27, optimal_temp_max := 33,
    nitrogen_need := .low, phosphorus_need := .moderate, potassium_need := .low,
    min_humidity := 60, max_humidity := 85,
    description := "Legume crop preferring warm and humid conditions" }),
  ("kidneybeans", {
    crop_name := "Kidneybeans",
    ph_min := 5.5, ph_max := 7.5, ph_optimal_min := 6.0, ph_optimal_max := 7.0,
    preferred_soils := ["Loamy"],
    acceptable_soils := ["Clayey", "Sandy"],
    min_rainfall := 60, max_rainfall := 150, optimal_rainfall_min := 80, optimal_rainfall_max := 120,
    min_temperature := 15, max_temperature := 30, optimal_temp_min := 18, optimal_temp_max := 25,
    nitrogen_need := .low, phosphorus_need := .high, potassium_need := .moderate,
    min_humidity := 50, max_humidity := 80,
    description := "Bean crop preferring moderate temperatures" }),
  ("pomegranate", {
    crop_name := "Pomegranate",
    ph_min := 5.5, ph_max := 8.0, ph_optimal_min := 6.0, ph_optimal_max := 7.5,
    preferred_soils := ["Loamy", "Sandy"],
    acceptable_soils := ["Clayey"],
    min_rainfall := 50, max_rainfall := 150, optimal_rainfall_min := 75, optimal_rainfall_max := 120,
    min_temperature := 18, max_temperature := 40, optimal_temp_min := 22, optimal_temp_max := 35,
    nitrogen_need := .moderate, phosphorus_need := .low, potassium_need := .moderate,
    min_humidity := 35, max_humidity := 70,
    description := "Drought-tolerant fruit tree for semi-arid regions" }),
  ("watermelon", {
    crop_name := "Watermelon",
    ph_min := 5.5, ph_max := 7.5, ph_optimal_min := 6.0, ph_optimal_max := 7.0,
    preferred_soils := ["Sandy", "Loamy"],
    acceptable_soils := ["Silty"],
    min_rainfall := 40, max_rainfall := 80, optimal_rainfall_min := 50, optimal_rainfall_max := 70,
    min_temperature := 22, max_temperature := 38, optimal_temp_min := 25, optimal_temp_max := 32,
    nitrogen_need := .moderate, phosphorus_need := .moderate, potassium_need := .high,
    min_humidity := 50, max_humidity := 80,
    description := "Vine fruit requiring warm temperatures and sandy soil" }),
  ("muskmelon", {
    crop_name := "Muskmelon",
    ph_min := 5.5, ph_max := 7.5, ph_optimal_min := 6.0, ph_optimal_max := 6.8,
    preferred_soils := ["Sandy", "Loamy"],
    acceptable_soils := ["Silty"],
    min_rainfall := 35, max_rainfall := 75, optimal_rainfall_min := 45, optimal_rainfall_max := 65,
    min_temperature := 20, max_temperature := 38, optimal_temp_min := 24, optimal_temp_max := 32,
    nitrogen_need := .moderate, phosphorus_need := .moderate, potassium_need := .high,
    min_humidity := 45, max_humidity := 75,
    description := "Melon preferring warm, dry conditions" })
]

/-- `CROP_RULES[crop_key]` lookup (`crop_key in CROP_RULES` test and access). -/
def lookupRule (key : String) : Option CropRule :=
  (CROP_RULES.find? (fun kv => kv.1 = key)).map (fun kv => kv.2)

/-- The seven scalar fields of `PredictionInput` (the measurement record). -/
structure Measurement where
  nitrogen : ℚ
  phosphorus : ℚ
  potassium : ℚ
  temperature : ℚ
  humidity : ℚ
  ph : ℚ
  rainfall : ℚ
deriving DecidableEq, Repr

/-- Python's `str.lower()` (the crop names and soil labels involved are
ASCII): every character lower-cased. -/
def pyLower (s : String) : String :=
  String.mk (s.data.map Char.toLower)

/-- Python's `str.capitalize()`: first character upper-cased, rest lower-cased. -/
def pyCapitalize (s : String) : String :=
  match s.data with
  | [] => ""
  | c :: cs => String.mk (c.toUpper :: cs.map Char.toLower)

/-- One constructor per message template of the source, carrying the
interpolated payloads.  Validator verdict messages, nutrient detail
messages, warnings, suggestions and the recommender's default failure
reason all live here. -/
inductive Msg where
  | phOptimalMsg (ph omin omax : ℚ)
  | phAcceptableMsg (ph omin omax : ℚ)
  | phOutsideMsg (ph pmin pmax : ℚ)
  | soilPreferredMsg (soil crop : String)
  | soilAcceptableMsg (soil crop : String) (preferred : List String)
  | soilNotRecommendedMsg (soil crop : String) (suitable : List String)
  | rainfallOptimalMsg (r : ℚ)
  | rainfallAcceptableMsg (r omin omax : ℚ)
  | rainfallTooLowMsg (r rmin : ℚ)
  | rainfallTooHighMsg (r rmax : ℚ)
  | tempOptimalMsg (t : ℚ)
  | tempAcceptableMsg (t omin omax : ℚ)
  | tempTooLowMsg (t tmin : ℚ)
  | tempTooHighMsg (t tmax : ℚ)
  | humidityOptimalMsg (h : ℚ)
  | humidityAcceptableMsg (h : ℚ)
  | humidityOutsideMsg (h hmin hmax : ℚ)
  | nutrientNeedHigh (nutrient crop : String) (current : NutrientLevel)
  | nutrientExcess (nutrient crop : String)
  | nutrientSuitable (nutrient : String) (level : NutrientLevel)
  | noRulesFor (crop : String)
  | phUnsuitable (ph : ℚ) (crop : String)
  | soilNotSuitableForCrop (soil crop : String)
  | insufficientRainfall (crop : String)
  | excessiveRainfall (crop : String)
  | temperatureStress (t : ℚ)
  | adjustPh (omin omax : ℚ)
  | considerSoils (soils : List String)
  | humidityManagement
  | selectedOverML (finalCrop mlCrop : String)
  | cropsSkipped (names : List String)
  | soilTestingAdvice
  | soilTypeMismatch
deriving DecidableEq, Repr

/-- `RuleValidator.get_nutrient_level`. -/
def get_nutrient_level (value : ℚ) (nutrient_type : String) : NutrientLevel :=
  let thresh : ℚ × ℚ :=
    if nutrient_type = "N" then (40, 80)
    else if nutrient_type = "P" then (30, 60)
    else if nutrient_type = "K" then (40, 70)
    else (40, 70)
  if value < thresh.1 then .low
  else if value > thresh.2 then .high
  else .moderate

/-- `RuleValidator.validate_ph`: `(is_acceptable, is_optimal, message)`. -/
def validate_ph (ph : ℚ) (rule : CropRule) : Bool × Bool × Msg :=
  if rule.ph_optimal_min ≤ ph ∧ ph ≤ rule.ph_optimal_max then
    (true, true, .phOptimalMsg ph rule.ph_optimal_min rule.ph_optimal_max)
  else if rule.ph_min ≤ ph ∧ ph ≤ rule.ph_max then
    (true, false, .phAcceptableMsg ph rule.ph_optimal_min rule.ph_optimal_max)
  else
    (false, false, .phOutsideMsg ph rule.ph_min rule.ph_max)

/-- `RuleValidator.validate_soil_type`: `(is_acceptable, is_preferred, message)`. -/
def validate_soil_type (soil_type : String) (rule : CropRule) : Bool × Bool × Msg :=
  if soil_type ∈ rule.preferred_soils then
    (true, true, .soilPreferredMsg soil_type rule.crop_name)
  else if soil_type ∈ rule.acceptable_soils then
    (true, false, .soilAcceptableMsg soil_type rule.crop_name rule.preferred_soils)
  else
    (false, false, .soilNotRecommendedMsg soil_type rule.crop_name
      (rule.preferred_soils ++ rule.acceptable_soils))

/-- `RuleValidator.validate_rainfall`: `(is_acceptable, is_optimal, message)`. -/
def validate_rainfall (rainfall : ℚ) (rule : CropRule) : Bool × Bool × Msg :=
  if rule.optimal_rainfall_min ≤ rainfall ∧ rainfall ≤ rule.optimal_rainfall_max then
    (true, true, .rainfallOptimalMsg rainfall)
  else if rule.min_rainfall ≤ rainfall ∧ rainfall ≤ rule.max_rainfall then
    (true, false, .rainfallAcceptableMsg rainfall rule.optimal_rainfall_min rule.optimal_rainfall_max)
  else if rainfall < rule.min_rainfall then
    (false, false, .rainfallTooLowMsg rainfall rule.min_rainfall)
  else
    (false, false, .rainfallTooHighMsg rainfall rule.max_rainfall)

/-- `RuleValidator.validate_temperature`: `(is_acceptable, is_optimal, message)`. -/
def validate_temperature (temperature : ℚ) (rule : CropRule) : Bool × Bool × Msg :=
  if rule.optimal_temp_min ≤ temperature ∧ temperature ≤ rule.optimal_temp_max then
    (true, true, .tempOptimalMsg temperature)
  else if rule.min_temperature ≤ temperature ∧ temperature ≤ rule.max_temperature then
    (true, false, .tempAcceptableMsg temperature rule.optimal_temp_min rule.optimal_temp_max)
  else if temperature < rule.min_temperature then
    (false, false, .tempTooLowMsg temperature rule.min_temperature)
  else
    (false, false, .tempTooHighMsg temperature rule.max_temperature)

/-- `RuleValidator.validate_humidity`: `(is_acceptable, is_optimal, message)`.
The optimal band is `mid ± 0.3 × (max - min)` around the midpoint. -/
def validate_humidity (humidity : ℚ) (rule : CropRule) : Bool × Bool × Msg :=
  let mid_humidity := (rule.min_humidity + rule.max_humidity) / 2
  let optimal_range := (rule.max_humidity - rule.min_humidity) * 0.3
  if mid_humidity - optimal_range ≤ humidity ∧ humidity ≤ mid_humidity + optimal_range then
    (true, true, .humidityOptimalMsg humidity)
  else if rule.min_humidity ≤ humidity ∧ humidity ≤ rule.max_humidity then
    (true, false, .humidityAcceptableMsg humidity)
  else
    (false, false, .humidityOutsideMsg humidity rule.min_humidity rule.max_humidity)

/-- `RuleValidator.validate_nutrients`: `(all_adequate, messages)`, messages in
N, P, K order.  `nutrientNeedHigh` is the `⚠️`-marked (warning) template. -/
def validate_nutrients (n p k : ℚ) (rule : CropRule) : Bool × List Msg :=
  let n_level := get_nutrient_level n "N"
  let p_level := get_nutrient_level p "P"
  let k_level := get_nutrient_level k "K"
  let nMsg : Msg × Bool :=
    if rule.nitrogen_need = .high ∧ n_level ≠ .high then
      (.nutrientNeedHigh "Nitrogen" rule.crop_name n_level, false)
    else if rule.nitrogen_need = .low ∧ n_level = .high then
      (.nutrientExcess "Nitrogen" rule.crop_name, true)
    else
      (.nutrientSuitable "Nitrogen" n_level, true)
  let pMsg : Msg × Bool :=
    if rule.phosphorus_need = .high ∧ p_level ≠ .high then
      (.nutrientNeedHigh "Phosphorus" rule.crop_name p_level, false)
    else if rule.phosphorus_need = .low ∧ p_level = .high then
      (.nutrientExcess "Phosphorus" rule.crop_name, true)
    else
      (.nutrientSuitable "Phosphorus" p_level, true)
  let kMsg : Msg × Bool :=
    if rule.potassium_need = .high ∧ k_level ≠ .high then
      (.nutrientNeedHigh "Potassium" rule.crop_name k_level, false)
    else if rule.potassium_need = .low ∧ k_level = .high then
      (.nutrientExcess "Potassium" rule.crop_name, true)
    else
      (.nutrientSuitable "Potassium" k_level, true)
  (nMsg.2 && pMsg.2 && kMsg.2, [nMsg.1, pMsg.1, kMsg.1])

/-- The `if "⚠️" in msg` test used when moving nutrient detail messages into
the warnings list. -/
def isNutrientWarning : Msg → Bool
  | .nutrientNeedHigh _ _ _ => true
  | _ => false

/-- Python's `round(x, 1)` on the exact rational value. -/
def round1 (q : ℚ) : ℚ := (round (q * 10) : ℤ) / 10

/-- One entry of the `validations` dict: `{passed, optimal-or-preferred, message}`. -/
structure FieldResult where
  passed : Bool
  optimal : Bool
  message : Msg
deriving DecidableEq, Repr

/-- The `nutrients` entry of the `validations` dict: `{passed, details}`. -/
structure NutrientsResult where
  passed : Bool
  details : List Msg
deriving DecidableEq, Repr

/-- The full `validations` dict produced in the has-rules branch of
`validate_crop` (key order: ph, soil_type, rainfall, temperature,
humidity, nutrients). -/
structure Validations where
  ph : FieldResult
  soil_type : FieldResult
  rainfall : FieldResult
  temperature : FieldResult
  humidity : FieldResult
  nutrients : NutrientsResult
deriving DecidableEq, Repr

/-- The dict returned by `RuleValidator.validate_crop`.  Keys absent in one
of the two return paths are `Option` fields; the empty `validations` dict
of the no-rules path is `none`. -/
structure CropValidation where
  has_rules : Bool
  crop : String
  message : Option Msg
  crop_description : Option String
  validation_score : Option ℚ
  validations : Option Validations
  warnings : List Msg
  suggestions : List Msg
  all_passed : Option Bool
deriving DecidableEq, Repr

/-- `RuleValidator.validate_crop`. -/
def validate_crop (crop_name soil_type : String)
    (n p k temperature humidity ph rainfall : ℚ) : CropValidation :=
  let crop_key := pyLower crop_name
  match lookupRule crop_key with
  | none =>
    { has_rules := false
      crop := crop_name
      message := some (.noRulesFor crop_name)
      crop_description := none
      validation_score := none
      validations := none
      warnings := []
      suggestions := []
      all_passed := none }
  | some rule =>
    let phv := validate_ph ph rule
    let phComponent : ℚ := if phv.2.1 then 1.0 else if phv.1 then 0.7 else 0.0
    let phWarnings : List Msg :=
      if phv.2.1 then [] else if phv.1 then [] else [.phUnsuitable ph crop_name]
    let phSuggestions : List Msg :=
      if phv.2.1 then [] else if phv.1 then
        [.adjustPh rule.ph_optimal_min rule.ph_optimal_max] else []
    let soilv := validate_soil_type soil_type rule
    let soilComponent : ℚ := if soilv.2.1 then 1.0 else if soilv.1 then 0.7 else 0.0
    let soilWarnings : List Msg :=
      if soilv.2.1 then [] else if soilv.1 then []
      else [.soilNotSuitableForCrop soil_type crop_name]
    let soilSuggestions : List Msg :=
      if soilv.2.1 then [] else if soilv.1 then
        [.considerSoils rule.preferred_soils] else []
    let rainv := validate_rainfall rainfall rule
    let rainComponent : ℚ := if rainv.2.1 then 1.0 else if rainv.1 then 0.7 else 0.3
    let rainWarnings : List Msg :=
      if rainv.2.1 then [] else if rainv.1 then []
      else if rainfall < rule.min_rainfall then [.insufficientRainfall crop_name]
      else [.excessiveRainfall crop_name]
    let tempv := validate_temperature temperature rule
    let tempComponent : ℚ := if tempv.2.1 then 1.0 else if tempv.1 then 0.7 else 0.2
    let tempWarnings : List Msg :=
      if tempv.2.1 then [] else if tempv.1 then []
      else [.temperatureStress temperature]
    let humv := validate_humidity humidity rule
    let humComponent : ℚ := if humv.2.1 then 1.0 else if humv.1 then 0.8 else 0.4
    let humSuggestions : List Msg :=
      if humv.2.1 then [] else if humv.1 then [] else [.humidityManagement]
    let nutv := validate_nutrients n p k rule
    let nutComponent : ℚ := if nutv.1 then 1.0 else 0.6
    let nutWarnings : List Msg :=
      if nutv.1 then [] else nutv.2.filter isNutrientWarning
    let score_components : List ℚ :=
      [phComponent, soilComponent, rainComponent, tempComponent, humComponent, nutComponent]
    let validation_score := (score_components.sum / score_components.length) * 100
    { has_rules := true
      crop := crop_name
      message := none
      crop_description := some rule.description
      validation_score := some (round1 validation_score)
      validations := some
        { ph := { passed := phv.1, optimal := phv.2.1, message := phv.2.2 }
          soil_type := { passed := soilv.1, optimal := soilv.2.1, message := soilv.2.2 }
          rainfall := { passed := rainv.1, optimal := rainv.2.1, message := rainv.2.2 }
          temperature := { passed := tempv.1, optimal := tempv.2.1, message := tempv.2.2 }
          humidity := { passed := humv.1, optimal := humv.2.1, message := humv.2.2 }
          nutrients := { passed := nutv.1, details := nutv.2 } }
      warnings := phWarnings ++ soilWarnings ++ rainWarnings ++ tempWarnings ++ nutWarnings
      suggestions := phSuggestions ++ soilSuggestions ++ humSuggestions
      all_passed := some (phv.1 && soilv.1 && rainv.1 && tempv.1 && humv.1 && nutv.1) }

/-- One record of the `get_suitable_crops` result list. -/
structure RankedCrop where
  crop : String
  validation_score : ℚ
  all_passed : Bool
  warnings_count : ℕ
  description : String
  soil_compatible : Bool
deriving DecidableEq, Repr

/-- The `results` list built by `get_suitable_crops` before sorting: every
crop of `CROP_RULES` in table order, kept when its validation has a score
(always, for table crops) and its soil-type check passed. -/
def suitableResults (soil_type : String)
    (n p k temperature humidity ph rainfall : ℚ) : List RankedCrop :=
  CROP_RULES.filterMap (fun kv =>
    let validation := validate_crop kv.1 soil_type n p k temperature humidity ph rainfall
    match validation.validation_score with
    | none => none
    | some score =>
      let soil_passed := match validation.validations with
        | none => false
        | some vs => vs.soil_type.passed
      if soil_passed then
        some { crop := pyCapitalize kv.1
               validation_score := score
               all_passed := validation.all_passed.getD false
               warnings_count := validation.warnings.length
               description := kv.2.description
               soil_compatible := true }
      else none)

/-- The comparison of `results.sort(key=lambda x: x["validation_score"],
reverse=True)`: descending by score. -/
def rankedGE (a b : RankedCrop) : Prop := b.validation_score ≤ a.validation_score

instance : DecidableRel rankedGE := fun _ _ => inferInstanceAs (Decidable (_ ≤ _))

instance : IsTotal RankedCrop rankedGE :=
  ⟨fun a b => le_total b.validation_score a.validation_score⟩

instance : IsTrans RankedCrop rankedGE :=
  ⟨fun _ _ _ hab hbc => hbc.trans hab⟩

/-- `RuleValidator.get_suitable_crops`: stable descending sort of the
soil-compatible results, truncated to `top_n`. -/
def get_suitable_crops (soil_type : String)
    (n p k temperature humidity ph rainfall : ℚ) (top_n : ℕ) : List RankedCrop :=
  ((suitableResults soil_type n p k temperature humidity ph rainfall).insertionSort
    rankedGE).take top_n

/-- The soil classifier output consumed by `hybrid_analyze`
(`predict_soil_type` result). -/
structure SoilResult where
  predicted_type : String
  confidence : ℚ
  all_probabilities : List (String × ℚ)
deriving DecidableEq, Repr

/-- One entry of the crop classifier's `alternatives` list. -/
structure CropAlt where
  crop : String
  confidence : ℚ
deriving DecidableEq, Repr

/-- The crop classifier output consumed by `hybrid_analyze`
(`predict_crop` result). -/
structure CropResult where
  recommended_crop : String
  confidence : ℚ
  alternatives : List CropAlt
deriving DecidableEq, Repr

/-- One entry of `crops_filtered_out`. -/
structure FilteredOut where
  crop : String
  confidence : ℚ
  reason : Msg
deriving DecidableEq, Repr

/-- The `soil_analysis` block of the hybrid result. -/
structure SoilAnalysis where
  predicted_type : String
  confidence : ℚ
  all_probabilities : List (String × ℚ)
deriving DecidableEq, Repr

/-- The `crop_recommendation` block of the hybrid result. -/
structure CropRecommendation where
  recommended_crop : String
  ml_confidence : ℚ
  alternatives : List CropAlt
  original_ml_prediction : Option String
deriving DecidableEq, Repr

/-- The `rule_validation` block of the hybrid result. -/
structure RuleValidationBlock where
  has_rules : Bool
  validation_score : ℚ
  all_checks_passed : Bool
  validations : Option Validations
  crop_description : String
deriving DecidableEq, Repr

/-- The dict returned by `MLService.hybrid_analyze`. -/
structure HybridResult where
  soil_analysis : SoilAnalysis
  crop_recommendation : CropRecommendation
  rule_validation : RuleValidationBlock
  final_score : ℚ
  recommendation_quality : String
  warnings : List Msg
  suggestions : List Msg
  alternative_crops : List RankedCrop
  crops_filtered_out : List FilteredOut
  input_summary : Measurement
deriving DecidableEq, Repr

/-- `validate_crop` applied to the fields of a `Measurement`, in the
argument order used by `hybrid_analyze`. -/
def validateFor (crop soil : String) (d : Measurement) : CropValidation :=
  validate_crop crop soil d.nitrogen d.phosphorus d.potassium
    d.temperature d.humidity d.ph d.rainfall

/-- `get_suitable_crops` applied with `top_n=5`, as called by
`hybrid_analyze`. -/
def rankerFor (soil : String) (d : Measurement) : List RankedCrop :=
  get_suitable_crops soil d.nitrogen d.phosphorus d.potassium
    d.temperature d.humidity d.ph d.rainfall 5

/-- The viability test of the candidate walk: a crop is accepted when it
has no rules at all or its soil-type sub-check passed (the empty
`validations` dict of the no-rules path makes `soil_passed` default to
`True` in the source). -/
def viable (v : CropValidation) : Bool :=
  let soil_passed := match v.validations with
    | none => true
    | some vs => vs.soil_type.passed
  !v.has_rules || soil_passed

/-- The failure reason recorded for a rejected candidate: its first
warning, or `"Soil type mismatch"` when it has none. -/
def failReason (v : CropValidation) : Msg :=
  v.warnings.head?.getD .soilTypeMismatch

/-- The `for crop_option in all_ml_crops` loop of `hybrid_analyze`:
returns the first accepted candidate (with its validation) and the list
of earlier-rejected candidates with their reasons. -/
def walkCandidates (soil : String) (d : Measurement) :
    List CropAlt → Option (CropAlt × CropValidation) × List FilteredOut
  | [] => (none, [])
  | c :: rest =>
    let v := validateFor c.crop soil d
    if viable v then (some (c, v), [])
    else
      let step := walkCandidates soil d rest
      (step.1, { crop := c.crop, confidence := c.confidence, reason := failReason v } :: step.2)

/-- The ordered ML candidate list `[recommended_crop] + alternatives`,
with the `"Unknown"/0/[]` sentinels when the classifier output is absent. -/
def mlCandidates (crop_result : Option CropResult) : List CropAlt :=
  match crop_result with
  | some c => { crop := c.recommended_crop, confidence := c.confidence } :: c.alternatives
  | none => [{ crop := "Unknown", confidence := 0 }]

/-- `predicted_soil`: the soil label, or the `"Unknown"` sentinel. -/
def predictedSoil (soil_result : Option SoilResult) : String :=
  match soil_result with | some s => s.predicted_type | none => "Unknown"

/-- `soil_confidence`: the soil classifier confidence, or the `0` sentinel. -/
def soilConfidenceOf (soil_result : Option SoilResult) : ℚ :=
  match soil_result with | some s => s.confidence | none => 0

/-- `ml_recommended_crop`: the crop classifier's top choice, or `"Unknown"`. -/
def mlTopCrop (crop_result : Option CropResult) : String :=
  match crop_result with | some c => c.recommended_crop | none => "Unknown"

/-- `ml_crop_confidence`: the crop classifier's top confidence, or `0`. -/
def mlTopConfidence (crop_result : Option CropResult) : ℚ :=
  match crop_result with | some c => c.confidence | none => 0

/-- The acceptance test of the candidate walk, as a predicate on one
candidate. -/
def acceptCandidate (soil : String) (d : Measurement) (c : CropAlt) : Bool :=
  viable (validateFor c.crop soil d)

/-- The selection step after the candidate walk: the accepted ML candidate
if any; otherwise the ranker's top entry with `validation_score × 0.7` as
confidence; otherwise the raw ML recommendation, still validated. -/
def selectFinal (soil : String) (d : Measurement) (ml_crop : String) (ml_conf : ℚ)
    (accepted : Option (CropAlt × CropValidation)) : String × ℚ × CropValidation :=
  match accepted with
  | some (c, v) => (c.crop, c.confidence, v)
  | none =>
    match rankerFor soil d with
    | best :: _ =>
      (best.crop, best.validation_score * 0.7, validateFor best.crop soil d)
    | [] => (ml_crop, ml_conf, validateFor ml_crop soil d)

/-- Step 5 of `hybrid_analyze`: `max(0, conf×0.6 + score×0.4 − 5×warnings)`. -/
def finalScoreOf (final_crop_confidence validation_score : ℚ) (warning_count : ℕ) : ℚ :=
  let base_score := final_crop_confidence * 0.6 + validation_score * 0.4
  let warning_penalty := (warning_count : ℚ) * 5
  max 0 (base_score - warning_penalty)

/-- Step 6 of `hybrid_analyze`: quality banding with the warning-count
override passes. -/
def recommendationQualityOf (final_score validation_score final_crop_confidence : ℚ)
    (all_checks_passed : Bool) (warning_count : ℕ) : String :=
  let initial :=
    if 80 ≤ final_score ∧ all_checks_passed then "Excellent"
    else if 70 ≤ final_score ∧ warning_count ≤ 1 then "Good"
    else if 50 ≤ final_score ∨ (80 ≤ validation_score ∧ 40 ≤ final_crop_confidence) then "Moderate"
    else if 30 ≤ final_score then "Fair"
    else "Poor"
  let downgraded :=
    if 2 ≤ warning_count ∧ (initial = "Excellent" ∨ initial = "Good") then "Moderate"
    else initial
  if 3 ≤ warning_count then "Needs Review" else downgraded

/-- The candidate walk followed by the fallback selection, as one stage:
the final crop, its confidence, and its rule validation. -/
def hybridSelection (soil_result : Option SoilResult) (crop_result : Option CropResult)
    (data : Measurement) : String × ℚ × CropValidation :=
  selectFinal (predictedSoil soil_result) data (mlTopCrop crop_result)
    (mlTopConfidence crop_result)
    (walkCandidates (predictedSoil soil_result) data (mlCandidates crop_result)).1

/-- `MLService.hybrid_analyze`, taking the two classifier outputs as
explicit optional inputs (the source reads them from the class-level model
singletons; absence is the `None` case handled by its `if ... else`
defaults). -/
def hybrid_analyze (soil_result : Option SoilResult) (crop_result : Option CropResult)
    (data : Measurement) : HybridResult :=
  let predicted_soil := predictedSoil soil_result
  let soil_confidence : ℚ := soilConfidenceOf soil_result
  let ml_recommended_crop := mlTopCrop crop_result
  let walk := walkCandidates predicted_soil data (mlCandidates crop_result)
  let crops_that_failed := walk.2
  let sel := hybridSelection soil_result crop_result data
  let final_recommended_crop := sel.1
  let final_crop_confidence := sel.2.1
  let final_rule_validation := sel.2.2
  let rule_based_crops := rankerFor predicted_soil data
  let validation_score := final_rule_validation.validation_score.getD 0
  let warnings := final_rule_validation.warnings
  let all_checks_passed := final_rule_validation.all_passed.getD false
  let final_score := finalScoreOf final_crop_confidence validation_score warnings.length
  let recommendation_quality := recommendationQualityOf final_score validation_score
    final_crop_confidence all_checks_passed warnings.length
  let suggestions0 := final_rule_validation.suggestions
  let suggestions1 :=
    if pyLower final_recommended_crop ≠ pyLower ml_recommended_crop then
      Msg.selectedOverML (pyCapitalize final_recommended_crop) ml_recommended_crop :: suggestions0
    else suggestions0
  let suggestions2 :=
    if crops_that_failed ≠ [] then
      suggestions1 ++ [Msg.cropsSkipped ((crops_that_failed.take 2).map (fun c => c.crop))]
    else suggestions1
  let suggestions :=
    if soil_confidence < 70 then suggestions2 ++ [Msg.soilTestingAdvice] else suggestions2
  let filtered_alternatives :=
    ((rule_based_crops.take 3).filter
      (fun c => pyLower c.crop ≠ pyLower final_recommended_crop)).map
      (fun c => ({ crop := c.crop, confidence := c.validation_score } : CropAlt))
  { soil_analysis :=
      { predicted_type := predicted_soil
        confidence := soil_confidence
        all_probabilities := match soil_result with
          | some s => s.all_probabilities | none => [] }
    crop_recommendation :=
      { recommended_crop := final_recommended_crop
        ml_confidence := final_crop_confidence
        alternatives := filtered_alternatives
        original_ml_prediction :=
          if pyLower ml_recommended_crop ≠ pyLower final_recommended_crop then
            some ml_recommended_crop
          else none }
    rule_validation :=
      { has_rules := final_rule_validation.has_rules
        validation_score := validation_score
        all_checks_passed := all_checks_passed
        validations := final_rule_validation.validations
        crop_description := final_rule_validation.crop_description.getD "" }
    final_score := round1 final_score
    recommendation_quality := recommendation_quality
    warnings := warnings
    suggestions := suggestions
    alternative_crops := rule_based_crops
    crops_filtered_out := crops_that_failed
    input_summary := data }

/-! ## Auxiliary lemmas -/

/-- The first entry of the rule table (used to instantiate table-wide
statements). -/
def firstRule : String × CropRule := CROP_RULES.head (by decide)

theorem crop_rules_keys_fixed :
    ∀ kv ∈ CROP_RULES, pyLower kv.1 = kv.1 ∧ pyCapitalize kv.1 ≠ "" := by with_unfolding_all decide

theorem lookupRule_self : ∀ kv ∈ CROP_RULES, lookupRule kv.1 = some kv.2 := by with_unfolding_all decide

/-- Characterisation of the candidate walk: the accepted candidate is the
first one satisfying the acceptance test, and the rejected ones are the
strict prefix that fails it, each mapped to its failure reason. -/
theorem walkCandidates_eq (soil : String) (d : Measurement) (cands : List CropAlt) :
    walkCandidates soil d cands =
      ((cands.find? (acceptCandidate soil d)).map
         (fun c => (c, validateFor c.crop soil d)),
       (cands.takeWhile (fun c => !acceptCandidate soil d c)).map
         (fun c => { crop := c.crop, confidence := c.confidence,
                     reason := failReason (validateFor c.crop soil d) })) := by
  induction cands with
  | nil => rfl
  | cons c rest ih =>
    by_cases hc : acceptCandidate soil d c = true
    · have hv : viable (validateFor c.crop soil d) = true := hc
      simp [walkCandidates, hv, List.find?_cons_of_pos _ hc, List.takeWhile_cons, hc]
    · have hcf : acceptCandidate soil d c = false := eq_false_of_ne_true hc
      have hv : viable (validateFor c.crop soil d) = false := hcf
      simp [walkCandidates, hv, List.find?_cons_of_neg _ hc, List.takeWhile_cons, hcf, ih]

theorem mem_of_mem_get_suitable_crops {soil : String} {n p k t h ph r : ℚ} {topn : ℕ}
    {e : RankedCrop} (he : e ∈ get_suitable_crops soil n p k t h ph r topn) :
    e ∈ suitableResults soil n p k t h ph r := by
  have h1 : e ∈ (suitableResults soil n p k t h ph r).insertionSort rankedGE :=
    List.take_subset _ _ he
  exact (List.perm_insertionSort rankedGE _).subset h1

theorem mem_suitableResults {soil : String} {n p k t h ph r : ℚ} {e : RankedCrop}
    (he : e ∈ suitableResults soil n p k t h ph r) :
    ∃ kv, kv ∈ CROP_RULES ∧ e.crop = pyCapitalize kv.1 ∧
      (validate_soil_type soil kv.2).1 = true ∧ e.soil_compatible = true := by
  rw [suitableResults, List.mem_filterMap] at he
  obtain ⟨kv, hkv, hf⟩ := he
  have hkey := (crop_rules_keys_fixed kv hkv).1
  have hlook : lookupRule (pyLower kv.1) = some kv.2 := by
    rw [hkey]; exact lookupRule_self kv hkv
  simp only [validate_crop, hlook] at hf
  split at hf
  next hsoil =>
    obtain rfl : _ = e := Option.some.inj hf
    exact ⟨kv, hkv, rfl, hsoil, rfl⟩
  next hsoil => exact absurd hf (by simp)

/-- Boolean test for one validation score value, used to state sort
stability. -/
def scoreIs (s : ℚ) (e : RankedCrop) : Bool := e.validation_score = s

theorem filter_orderedInsert_of_eq {s : ℚ} {x : RankedCrop}
    (hx : x.validation_score = s) (l : List RankedCrop) :
    (l.orderedInsert rankedGE x).filter (scoreIs s) = x :: l.filter (scoreIs s) := by
  rw [List.orderedInsert_eq_take_drop, List.filter_append, List.filter_cons]
  have htake : (l.takeWhile fun b => ¬rankedGE x b).filter (scoreIs s) = [] := by
    rw [List.filter_eq_nil_iff]
    intro b hb
    have hpb : ¬rankedGE x b := by simpa using List.mem_takeWhile_imp hb
    have hlt : x.validation_score < b.validation_score := lt_of_not_le hpb
    simp only [scoreIs, decide_eq_true_eq]
    intro hbs
    exact absurd (hx.trans hbs.symm) (ne_of_lt hlt)
  have hxs : scoreIs s x = true := decide_eq_true hx
  rw [htake, if_pos hxs]
  have hsplit : l.filter (scoreIs s) =
      ((l.takeWhile fun b => ¬rankedGE x b).filter (scoreIs s)) ++
        ((l.dropWhile fun b => ¬rankedGE x b).filter (scoreIs s)) := by
    rw [← List.filter_append, List.takeWhile_append_dropWhile]
  rw [hsplit, htake]
  simp

theorem filter_orderedInsert_of_ne {s : ℚ} {x : RankedCrop}
    (hx : x.validation_score ≠ s) (l : List RankedCrop) :
    (l.orderedInsert rankedGE x).filter (scoreIs s) = l.filter (scoreIs s) := by
  rw [List.orderedInsert_eq_take_drop, List.filter_append, List.filter_cons]
  have hxs : scoreIs s x = false := decide_eq_false hx
  rw [hxs]
  simp only [Bool.false_eq_true, if_false]
  rw [← List.filter_append, List.takeWhile_append_dropWhile]

/-- A stable sort leaves the relative order of equal-score entries
unchanged: filtering any one score value commutes with the sort. -/
theorem filter_insertionSort (s : ℚ) (l : List RankedCrop) :
    (l.insertionSort rankedGE).filter (scoreIs s) = l.filter (scoreIs s) := by
  induction l with
  | nil => rfl
  | cons x xs ih =>
    rw [List.insertionSort]
    by_cases hx : x.validation_score = s
    · have hxs : scoreIs s x = true := decide_eq_true hx
      rw [filter_orderedInsert_of_eq hx, ih, List.filter_cons, hxs]
      simp
    · have hxs : scoreIs s x = false := decide_eq_false hx
      rw [filter_orderedInsert_of_ne hx, ih, List.filter_cons, hxs]
      simp

theorem ite_bounds3 (b1 b2 : Bool) (x y z : ℚ)
    (hx0 : 0 ≤ x) (hx1 : x ≤ 1) (hy0 : 0 ≤ y) (hy1 : y ≤ 1)
    (hz0 : 0 ≤ z) (hz1 : z ≤ 1) :
    0 ≤ (if b1 then x else if b2 then y else z) ∧
      (if b1 then x else if b2 then y else z) ≤ 1 := by
  cases b1 <;> cases b2 <;> simp_all

theorem ite_bounds2 (b : Bool) (x y : ℚ)
    (hx0 : 0 ≤ x) (hx1 : x ≤ 1) (hy0 : 0 ≤ y) (hy1 : y ≤ 1) :
    0 ≤ (if b then x else y) ∧ (if b then x else y) ≤ 1 := by
  cases b <;> simp_all

theorem round1_bounds {q : ℚ} (h0 : 0 ≤ q) (h1 : q ≤ 100) :
    0 ≤ round1 q ∧ round1 q ≤ 100 := by
  unfold round1
  have hlo : (0 : ℤ) ≤ round (q * 10) := by
    rw [round_eq]
    refine Int.le_floor.mpr ?_
    push_cast
    linarith
  have hhi : round (q * 10) ≤ (1000 : ℤ) := by
    rw [round_eq]
    have : ⌊q * 10 + 1 / 2⌋ < 1001 := by
      rw [Int.floor_lt]
      push_cast
      linarith
    omega
  constructor
  · apply div_nonneg _ (by norm_num)
    exact_mod_cast hlo
  · rw [div_le_iff₀ (by norm_num : (0:ℚ) < 10)]
    calc ((round (q * 10) : ℤ) : ℚ) ≤ (1000 : ℚ) := by exact_mod_cast hhi
    _ = 100 * 10 := by norm_num

/-! ## Sample inputs used to instantiate quantified theorems -/

/-- The measurement of the specification's Scenario 1. -/
def sampleMeasurement : Measurement :=
  { nitrogen := 100
    phosphorus := 50
    potassium := 50
    temperature := 27
    humidity := 85
    ph := 6
    rainfall := 220 }

/-- A soil classifier output predicting `"Sandy"`. -/
def sandySoilR : SoilResult :=
  { predicted_type := "Sandy", confidence := 80, all_probabilities := [] }

/-- A crop classifier output ranking wheat first and maize second. -/
def wheatMaizeCR : CropResult :=
  { recommended_crop := "wheat", confidence := 60,
    alternatives := [{ crop := "maize", confidence := 25 }] }

/-- A crop classifier output with wheat only and no alternatives. -/
def wheatOnlyCR : CropResult :=
  { recommended_crop := "wheat", confidence := 55, alternatives := [] }

/-- The single ranker entry for soil `"Black Cotton"` at
`sampleMeasurement`. -/
def riceRankedBC : RankedCrop :=
  { crop := "Rice", validation_score := 95, all_passed := true, warnings_count := 0,
    description := "Paddy crop requiring flooded conditions and high water availability",
    soil_compatible := true }

/-- The top ranker entry for soil `"Sandy"` at `sampleMeasurement`. -/
def coconutRankedSandy : RankedCrop :=
  { crop := "Coconut", validation_score := 933/10, all_passed := false, warnings_count := 1,
    description := "Coastal palm preferring sandy soils and high humidity",
    soil_compatible := true }

/-! ## Claims -/

/-- Claim C1: for every measurement and every pair of classifier outputs
(absent ones replaced by the `"Unknown"/0/[]` sentinels, and candidate
labels being non-empty classifier class labels), `hybrid_analyze` is a
total function (it is a Lean `def`, so no exception can occur) and, over
the non-empty reference rule table `CROP_RULES`, returns a non-empty
`final_recommended_crop`. -/
theorem C1_total_nonempty :
    ∀ (sr : Option SoilResult) (cr : Option CropResult) (d : Measurement),
      (∀ c ∈ mlCandidates cr, c.crop ≠ "") →
      (hybrid_analyze sr cr d).crop_recommendation.recommended_crop ≠ "" := by
  intro sr cr d hne
  have hrec : (hybrid_analyze sr cr d).crop_recommendation.recommended_crop =
      (hybridSelection sr cr d).1 := rfl
  rw [hrec]
  unfold hybridSelection selectFinal
  cases hw : (walkCandidates (predictedSoil sr) d (mlCandidates cr)).1 with
  | some cv =>
    obtain ⟨c0, v0⟩ := cv
    rw [walkCandidates_eq] at hw
    simp only [Option.map_eq_some'] at hw
    obtain ⟨a, ha, hav⟩ := hw
    have hmem := List.mem_of_find?_eq_some ha
    have hac : a = c0 := congrArg Prod.fst hav
    exact hne c0 (hac ▸ hmem)
  | none =>
    cases hr : rankerFor (predictedSoil sr) d with
    | cons best rest =>
      simp only [hr]
      have hr2 : get_suitable_crops (predictedSoil sr) d.nitrogen d.phosphorus
          d.potassium d.temperature d.humidity d.ph d.rainfall 5 = best :: rest := hr
      have hb : best ∈ get_suitable_crops (predictedSoil sr) d.nitrogen d.phosphorus
          d.potassium d.temperature d.humidity d.ph d.rainfall 5 := by
        rw [hr2]; exact List.mem_cons_self _ _
      obtain ⟨kv, hkv, hcrop, _, _⟩ := mem_suitableResults (mem_of_mem_get_suitable_crops hb)
      show best.crop ≠ ""
      rw [hcrop]
      exact (crop_rules_keys_fixed kv hkv).2
    | nil =>
      simp only [hr]
      cases cr with
      | some c =>
        exact hne { crop := c.recommended_crop, confidence := c.confidence }
          (List.mem_cons_self _ _)
      | none =>
        show "Unknown" ≠ ""
        simp

/-- Witness for C1 at the all-sentinels input. -/
theorem C1_witness :
    (hybrid_analyze none none sampleMeasurement).crop_recommendation.recommended_crop ≠ "" :=
  C1_total_nonempty none none sampleMeasurement (by with_unfolding_all decide)

/-- Claim C2: the candidate walk scans `[recommended_crop] + alternatives`
in the classifier's order, accepts the first candidate whose validation has
`has_rules = false` or a passing soil sub-check, and records every
earlier-rejected candidate in `crops_filtered_out` with its first warning
as reason (`Soil type mismatch` when it has none). -/
theorem C2_first_accepted :
    (∀ (soil : String) (d : Measurement) (cands : List CropAlt),
        walkCandidates soil d cands =
          ((cands.find? (acceptCandidate soil d)).map
             (fun c => (c, validateFor c.crop soil d)),
           (cands.takeWhile (fun c => !acceptCandidate soil d c)).map
             (fun c => { crop := c.crop, confidence := c.confidence,
                         reason := failReason (validateFor c.crop soil d) }))) ∧
    (∀ (soil : String) (d : Measurement) (c : CropAlt),
        acceptCandidate soil d c = true ↔
          ((validateFor c.crop soil d).has_rules = false ∨
           (∀ vs, (validateFor c.crop soil d).validations = some vs →
              vs.soil_type.passed = true))) ∧
    (∀ v : CropValidation,
        (v.warnings = [] → failReason v = Msg.soilTypeMismatch) ∧
        (∀ m rest, v.warnings = m :: rest → failReason v = m)) ∧
    (∀ (sr : Option SoilResult) (cr : Option CropResult) (d : Measurement),
        (hybrid_analyze sr cr d).crops_filtered_out =
          ((mlCandidates cr).takeWhile
             (fun c => !acceptCandidate (predictedSoil sr) d c)).map
            (fun c => { crop := c.crop, confidence := c.confidence,
                        reason := failReason (validateFor c.crop (predictedSoil sr) d) })) ∧
    (∀ (sr : Option SoilResult) (cr : Option CropResult) (d : Measurement) (c : CropAlt),
        (mlCandidates cr).find? (acceptCandidate (predictedSoil sr) d) = some c →
          (hybrid_analyze sr cr d).crop_recommendation.recommended_crop = c.crop ∧
          (hybrid_analyze sr cr d).crop_recommendation.ml_confidence = c.confidence) := by
  refine ⟨walkCandidates_eq, ?_, ?_, ?_, ?_⟩
  · intro soil d c
    unfold acceptCandidate viable
    cases hv : (validateFor c.crop soil d).validations with
    | none =>
      cases hh : (validateFor c.crop soil d).has_rules <;> simp [hv]
    | some vs =>
      cases hh : (validateFor c.crop soil d).has_rules <;>
        cases hp : vs.soil_type.passed <;> simp_all
  · intro v
    constructor
    · intro hw; unfold failReason; rw [hw]; rfl
    · intro m rest hw; unfold failReason; rw [hw]; rfl
  · intro sr cr d
    have : (hybrid_analyze sr cr d).crops_filtered_out =
        (walkCandidates (predictedSoil sr) d (mlCandidates cr)).2 := rfl
    rw [this, walkCandidates_eq]
  · intro sr cr d c hfind
    have h1 : (walkCandidates (predictedSoil sr) d (mlCandidates cr)).1 =
        some (c, validateFor c.crop (predictedSoil sr) d) := by
      rw [walkCandidates_eq]
      simp [hfind]
    constructor
    · show (hybridSelection sr cr d).1 = c.crop
      unfold hybridSelection selectFinal
      rw [h1]
    · show (hybridSelection sr cr d).2.1 = c.confidence
      unfold hybridSelection selectFinal
      rw [h1]

/-- Witness for C2: under soil `"Sandy"` the top candidate wheat is
rejected and alternative maize is the first accepted candidate. -/
theorem C2_witness :
    (hybrid_analyze (some sandySoilR) (some wheatMaizeCR)
        sampleMeasurement).crop_recommendation.recommended_crop = "maize" ∧
    (hybrid_analyze (some sandySoilR) (some wheatMaizeCR)
        sampleMeasurement).crop_recommendation.ml_confidence = 25 :=
  C2_first_accepted.2.2.2.2 (some sandySoilR) (some wheatMaizeCR) sampleMeasurement
    { crop := "maize", confidence := 25 } (by with_unfolding_all rfl)

/-- Claim C3: `final_score` is `max(0, confidence × 0.6 + validation_score
× 0.4 − 5 × warning_count)` (rounded to one decimal on output), is
monotonically non-increasing in the warning count for fixed confidence and
validation score, and is never negative. -/
theorem C3_final_score :
    (∀ (sr : Option SoilResult) (cr : Option CropResult) (d : Measurement),
        (hybrid_analyze sr cr d).final_score =
          round1 (finalScoreOf (hybridSelection sr cr d).2.1
            ((hybridSelection sr cr d).2.2.validation_score.getD 0)
            (hybridSelection sr cr d).2.2.warnings.length)) ∧
    (∀ (conf vs : ℚ) (w : ℕ),
        finalScoreOf conf vs w = max 0 (conf * 0.6 + vs * 0.4 - 5 * w)) ∧
    (∀ (conf vs : ℚ) (w w' : ℕ), w ≤ w' →
        finalScoreOf conf vs w' ≤ finalScoreOf conf vs w) ∧
    (∀ (conf vs : ℚ) (w : ℕ), 0 ≤ finalScoreOf conf vs w) := by
  refine ⟨fun sr cr d => rfl, fun conf vs w => ?_, fun conf vs w w' hww => ?_,
    fun conf vs w => le_max_left 0 _⟩
  · unfold finalScoreOf
    ring_nf
  · unfold finalScoreOf
    apply max_le_max le_rfl
    have hc : ((w : ℚ)) ≤ (w' : ℚ) := by exact_mod_cast hww
    linarith

/-- Witness for C3's monotonicity at one and two warnings. -/
theorem C3_witness :
    (1 : ℕ) ≤ 2 ∧ finalScoreOf 50 50 2 ≤ finalScoreOf 50 50 1 :=
  ⟨by norm_num, C3_final_score.2.2.1 50 50 1 2 (by norm_num)⟩

/-- The quality banding exactly as worded in the specification, to compare
against the source's `recommendationQualityOf`. -/
def qualityBandSpec (final_score validation_score confidence : ℚ)
    (all_passed : Bool) (w : ℕ) : String :=
  let banded :=
    if final_score ≥ 80 ∧ all_passed = true then "Excellent"
    else if final_score ≥ 70 ∧ w ≤ 1 then "Good"
    else if final_score ≥ 50 ∨ (validation_score ≥ 80 ∧ confidence ≥ 40) then "Moderate"
    else if final_score ≥ 30 then "Fair"
    else "Poor"
  let downgraded :=
    if w ≥ 2 ∧ (banded = "Excellent" ∨ banded = "Good") then "Moderate" else banded
  if w ≥ 3 then "Needs Review" else downgraded

/-- Claim C4: the recommendation quality follows the banded precedence with
the two warning-count override passes, and in particular a base score of 85
with 3 warnings yields final score 70 and quality `"Needs Review"`, not
`"Good"`. -/
theorem C4_quality_banding :
    (∀ (f vs c : ℚ) (ap : Bool) (w : ℕ),
        recommendationQualityOf f vs c ap w = qualityBandSpec f vs c ap w) ∧
    (∀ (sr : Option SoilResult) (cr : Option CropResult) (d : Measurement),
        (hybrid_analyze sr cr d).recommendation_quality =
          recommendationQualityOf
            (finalScoreOf (hybridSelection sr cr d).2.1
              ((hybridSelection sr cr d).2.2.validation_score.getD 0)
              (hybridSelection sr cr d).2.2.warnings.length)
            ((hybridSelection sr cr d).2.2.validation_score.getD 0)
            (hybridSelection sr cr d).2.1
            ((hybridSelection sr cr d).2.2.all_passed.getD false)
            (hybridSelection sr cr d).2.2.warnings.length) ∧
    (finalScoreOf 75 100 3 = 70 ∧
      recommendationQualityOf 70 100 75 false 3 = "Needs Review" ∧
      recommendationQualityOf 70 100 75 false 3 ≠ "Good") := by
  refine ⟨fun f vs c ap w => rfl, fun sr cr d => rfl, ?_, ?_, ?_⟩
  · unfold finalScoreOf
    rw [max_eq_right] <;> norm_num
  · with_unfolding_all rfl
  · with_unfolding_all decide

/-- Claim C5: when no ML candidate is accepted, the ranker's top entry (if
any) becomes the final crop with confidence `validation_score × 0.7`; when
the ranker is empty too, the raw ML recommendation is used and still
validated. -/
theorem C5_fallback :
    (∀ (soil : String) (d : Measurement) (ml : String) (mlc : ℚ)
        (b : RankedCrop) (rest : List RankedCrop),
        rankerFor soil d = b :: rest →
        selectFinal soil d ml mlc none =
          (b.crop, b.validation_score * 0.7, validateFor b.crop soil d)) ∧
    (∀ (soil : String) (d : Measurement) (ml : String) (mlc : ℚ),
        rankerFor soil d = [] →
        selectFinal soil d ml mlc none = (ml, mlc, validateFor ml soil d)) ∧
    (∀ (sr : Option SoilResult) (cr : Option CropResult) (d : Measurement),
        (hybrid_analyze sr cr d).crop_recommendation.recommended_crop =
          (hybridSelection sr cr d).1 ∧
        (hybrid_analyze sr cr d).crop_recommendation.ml_confidence =
          (hybridSelection sr cr d).2.1 ∧
        hybridSelection sr cr d =
          selectFinal (predictedSoil sr) d (mlTopCrop cr) (mlTopConfidence cr)
            (walkCandidates (predictedSoil sr) d (mlCandidates cr)).1) := by
  refine ⟨?_, ?_, fun sr cr d => ⟨rfl, rfl, rfl⟩⟩
  · intro soil d ml mlc b rest hr
    unfold selectFinal
    rw [hr]
  · intro soil d ml mlc hr
    unfold selectFinal
    rw [hr]

/-- Witness for C5: with soil `"Black Cotton"` and a wheat-only candidate
list nothing is accepted, the ranker returns exactly one entry (rice at
score 95), and the fallback picks it with confidence 95 × 0.7. -/
theorem C5_witness :
    (walkCandidates "Black Cotton" sampleMeasurement
        (mlCandidates (some wheatOnlyCR))).1 = none ∧
    rankerFor "Black Cotton" sampleMeasurement = [riceRankedBC] ∧
    selectFinal "Black Cotton" sampleMeasurement "wheat" 55 none =
      (riceRankedBC.crop, riceRankedBC.validation_score * 0.7,
        validateFor riceRankedBC.crop "Black Cotton" sampleMeasurement) :=
  ⟨by with_unfolding_all rfl, by with_unfolding_all rfl,
    C5_fallback.1 "Black Cotton" sampleMeasurement "wheat" 55 riceRankedBC []
      (by with_unfolding_all rfl)⟩

/-- Claim C6: every crop returned by `get_suitable_crops` passes the
soil-type validation for the given soil type; in particular no returned
entry for soil `"Sandy"` is rice. -/
theorem C6_soil_invariant :
    ∀ (soil : String) (n p k t h ph r : ℚ) (topn : ℕ) (e : RankedCrop),
      e ∈ get_suitable_crops soil n p k t h ph r topn →
      (∃ kv, kv ∈ CROP_RULES ∧ e.crop = pyCapitalize kv.1 ∧
        (validate_soil_type soil kv.2).1 = true ∧ e.soil_compatible = true) ∧
      (soil = "Sandy" → e.crop ≠ "Rice") := by
  intro soil n p k t h ph r topn e he
  obtain ⟨kv, hkv, hcrop, hsoil, hcompat⟩ :=
    mem_suitableResults (mem_of_mem_get_suitable_crops he)
  refine ⟨⟨kv, hkv, hcrop, hsoil, hcompat⟩, ?_⟩
  rintro rfl hrice
  have hfail : ∀ kv ∈ CROP_RULES, pyCapitalize kv.1 = "Rice" →
      (validate_soil_type "Sandy" kv.2).1 = false := by with_unfolding_all decide
  have := hfail kv hkv (hcrop ▸ hrice)
  rw [this] at hsoil
  exact Bool.false_ne_true hsoil

/-- Witness for C6: the coconut entry returned for soil `"Sandy"` passes
the soil check. -/
theorem C6_witness :
    coconutRankedSandy ∈ get_suitable_crops "Sandy" 100 50 50 27 85 6 220 5 ∧
    ((∃ kv, kv ∈ CROP_RULES ∧ coconutRankedSandy.crop = pyCapitalize kv.1 ∧
        (validate_soil_type "Sandy" kv.2).1 = true ∧
        coconutRankedSandy.soil_compatible = true) ∧
      ("Sandy" = "Sandy" → coconutRankedSandy.crop ≠ "Rice")) :=
  ⟨by with_unfolding_all decide,
    C6_soil_invariant "Sandy" 100 50 50 27 85 6 220 5 coconutRankedSandy
      (by with_unfolding_all decide)⟩

/-- Claim C7: `get_suitable_crops` returns at most `top_n` entries, sorted
by validation score in descending order, with ties kept in rule-table
iteration order (the filtered result list at any fixed score value is a
prefix of the unsorted table-order list at that value). -/
theorem C7_sorted_stable :
    ∀ (soil : String) (n p k t h ph r : ℚ) (topn : ℕ),
      (get_suitable_crops soil n p k t h ph r topn).length ≤ topn ∧
      List.Pairwise rankedGE (get_suitable_crops soil n p k t h ph r topn) ∧
      ∀ s : ℚ, ∃ rest,
        (suitableResults soil n p k t h ph r).filter (scoreIs s) =
          (get_suitable_crops soil n p k t h ph r topn).filter (scoreIs s) ++ rest := by
  intro soil n p k t h ph r topn
  refine ⟨List.length_take_le _ _, ?_, ?_⟩
  · exact List.Pairwise.sublist (List.take_sublist _ _)
      (List.sorted_insertionSort rankedGE _)
  · intro s
    refine ⟨(((suitableResults soil n p k t h ph r).insertionSort rankedGE).drop
        topn).filter (scoreIs s), ?_⟩
    rw [← filter_insertionSort s]
    conv_lhs => rw [← List.take_append_drop topn
      ((suitableResults soil n p k t h ph r).insertionSort rankedGE)]
    rw [List.filter_append]
    rfl

/-- Claim C8: `validate_crop` returns a null score exactly for crops absent
(after lower-casing) from the rule table — with `has_rules = false`, no
warnings and no suggestions — and otherwise a score in `[0, 100]`; the
recommender's walk accepts every `has_rules = false` validation. -/
theorem C8_validate_crop_contract :
    ∀ (crop soil : String) (n p k t h ph r : ℚ),
      ((validate_crop crop soil n p k t h ph r).validation_score = none ↔
        lookupRule (pyLower crop) = none) ∧
      (lookupRule (pyLower crop) = none →
        (validate_crop crop soil n p k t h ph r).has_rules = false ∧
        (validate_crop crop soil n p k t h ph r).warnings = [] ∧
        (validate_crop crop soil n p k t h ph r).suggestions = []) ∧
      (∀ s : ℚ, (validate_crop crop soil n p k t h ph r).validation_score = some s →
        (validate_crop crop soil n p k t h ph r).has_rules = true ∧
        0 ≤ s ∧ s ≤ 100) ∧
      ((validate_crop crop soil n p k t h ph r).has_rules = false →
        viable (validate_crop crop soil n p k t h ph r) = true) := by
  intro crop soil n p k t h ph r
  cases hl : lookupRule (pyLower crop) with
  | none =>
    refine ⟨by simp [validate_crop, hl], fun _ => by simp [validate_crop, hl],
      fun s hs => ?_, fun _ => by simp [validate_crop, hl, viable]⟩
    simp [validate_crop, hl] at hs
  | some rule =>
    refine ⟨by simp [validate_crop, hl], fun hn => absurd hn (by simp),
      fun s hs => ?_, fun hf => ?_⟩
    · refine ⟨by simp [validate_crop, hl], ?_⟩
      simp only [validate_crop, hl, Option.some.injEq] at hs
      subst hs
      have hb1 := ite_bounds3 (validate_ph ph rule).2.1 (validate_ph ph rule).1
        (1.0 : ℚ) 0.7 0.0 (by norm_num) (by norm_num) (by norm_num) (by norm_num)
        (by norm_num) (by norm_num)
      have hb2 := ite_bounds3 (validate_soil_type soil rule).2.1
        (validate_soil_type soil rule).1 (1.0 : ℚ) 0.7 0.0 (by norm_num) (by norm_num)
        (by norm_num) (by norm_num) (by norm_num) (by norm_num)
      have hb3 := ite_bounds3 (validate_rainfall r rule).2.1 (validate_rainfall r rule).1
        (1.0 : ℚ) 0.7 0.3 (by norm_num) (by norm_num) (by norm_num) (by norm_num)
        (by norm_num) (by norm_num)
      have hb4 := ite_bounds3 (validate_temperature t rule).2.1
        (validate_temperature t rule).1 (1.0 : ℚ) 0.7 0.2 (by norm_num) (by norm_num)
        (by norm_num) (by norm_num) (by norm_num) (by norm_num)
      have hb5 := ite_bounds3 (validate_humidity h rule).2.1 (validate_humidity h rule).1
        (1.0 : ℚ) 0.8 0.4 (by norm_num) (by norm_num) (by norm_num) (by norm_num)
        (by norm_num) (by norm_num)
      have hb6 := ite_bounds2 (validate_nutrients n p k rule).1 (1.0 : ℚ) 0.6
        (by norm_num) (by norm_num) (by norm_num) (by norm_num)
      apply round1_bounds <;>
        · simp only [List.sum_cons, List.sum_nil, List.length_cons, List.length_nil,
            add_zero, Nat.cast_ofNat]
          linarith [hb1.1, hb1.2, hb2.1, hb2.2, hb3.1, hb3.2, hb4.1, hb4.2,
            hb5.1, hb5.2, hb6.1, hb6.2]
    · rw [show (validate_crop crop soil n p k t h ph r).has_rules = true by
        simp [validate_crop, hl]] at hf
      exact absurd hf (by simp)

/-- Witness for C8: rice at Scenario 1 scores 100 (in bounds), and an
unknown crop name yields a null score. -/
theorem C8_witness :
    (validate_crop "rice" "Clayey" 100 50 50 27 85 6 220).has_rules = true ∧
    (0 : ℚ) ≤ 100 ∧ (100 : ℚ) ≤ 100 ∧
    ((validate_crop "unknowncrop" "Clayey" 100 50 50 27 85 6 220).validation_score = none ↔
      lookupRule (pyLower "unknowncrop") = none) := by
  have hs : (validate_crop "rice" "Clayey" 100 50 50 27 85 6 220).validation_score =
      some 100 := by with_unfolding_all rfl
  obtain ⟨h1, h2, h3⟩ :=
    (C8_validate_crop_contract "rice" "Clayey" 100 50 50 27 85 6 220).2.2.1 100 hs
  exact ⟨h1, h2, h3, (C8_validate_crop_contract "unknowncrop" "Clayey" 100 50 50 27 85 6 220).1⟩

/-- Counterexample for claim C9 as stated: NO entry of the reference rule
table has a humidity optimal band `mid ± 0.3 × (max − min)` that extends
beyond its acceptable range `[min_humidity, max_humidity]` — the claimed
entry does not exist. -/
theorem C9_counterexample :
    ¬ ∃ kv, kv ∈ CROP_RULES ∧
      ((kv.2.min_humidity + kv.2.max_humidity) / 2 -
          (kv.2.max_humidity - kv.2.min_humidity) * 0.3 < kv.2.min_humidity ∨
       kv.2.max_humidity < (kv.2.min_humidity + kv.2.max_humidity) / 2 +
          (kv.2.max_humidity - kv.2.min_humidity) * 0.3) := by
  with_unfolding_all decide

/-- Amended claim C9: for EVERY entry of the reference rule table the
humidity optimal band (computed exactly as in `validate_humidity`) lies
inside the acceptable range — the band halfwidth is `0.3 × range` against
the range halfwidth `0.5 × range`, so it can never extend beyond it. -/
theorem C9_amended :
    ∀ kv, kv ∈ CROP_RULES →
      (kv.2.min_humidity ≤ (kv.2.min_humidity + kv.2.max_humidity) / 2 -
          (kv.2.max_humidity - kv.2.min_humidity) * 0.3 ∧
       (kv.2.min_humidity + kv.2.max_humidity) / 2 +
          (kv.2.max_humidity - kv.2.min_humidity) * 0.3 ≤ kv.2.max_humidity) := by
  with_unfolding_all decide

/-- Witness for the amended C9 at the table's first entry (rice). -/
theorem C9_amended_witness :
    firstRule ∈ CROP_RULES ∧
    (firstRule.2.min_humidity ≤ (firstRule.2.min_humidity + firstRule.2.max_humidity) / 2 -
        (firstRule.2.max_humidity - firstRule.2.min_humidity) * 0.3 ∧
     (firstRule.2.min_humidity + firstRule.2.max_humidity) / 2 +
        (firstRule.2.max_humidity - firstRule.2.min_humidity) * 0.3 ≤
          firstRule.2.max_humidity) :=
  ⟨by with_unfolding_all decide, C9_amended firstRule (by with_unfolding_all decide)⟩

/-- Claim C10 (implicit): for a crop present in the rule table, a
validation with `all_passed = true` has an empty warnings list (warnings
are only produced by failing field checks or a HIGH-need nutrient
shortfall, each of which clears that field's `passed` flag), so the
5-point-per-warning penalty is zero whenever all checks pass. -/
theorem C10_all_passed_no_warnings :
    ∀ (crop soil : String) (n p k t h ph r : ℚ),
      (validate_crop crop soil n p k t h ph r).has_rules = true →
      (validate_crop crop soil n p k t h ph r).all_passed = some true →
      (validate_crop crop soil n p k t h ph r).warnings = [] ∧
      5 * (validate_crop crop soil n p k t h ph r).warnings.length = 0 := by
  intro crop soil n p k t h ph r hr hall
  cases hl : lookupRule (pyLower crop) with
  | none => simp [validate_crop, hl] at hr
  | some rule =>
    simp only [validate_crop, hl, Option.some.injEq] at hall
    simp only [Bool.and_eq_true] at hall
    obtain ⟨⟨⟨⟨⟨hph, hsoil⟩, hrain⟩, htemp⟩, hhum⟩, hnut⟩ := hall
    have hw : (validate_crop crop soil n p k t h ph r).warnings = [] := by
      simp [validate_crop, hl, hph, hsoil, hrain, htemp, hhum, hnut]
    exact ⟨hw, by rw [hw]; rfl⟩

/-- Witness for C10: rice at Scenario 1 passes all checks and has no
warnings. -/
theorem C10_witness :
    (validate_crop "rice" "Clayey" 100 50 50 27 85 6 220).warnings = [] ∧
    5 * (validate_crop "rice" "Clayey" 100 50 50 27 85 6 220).warnings.length = 0 :=
  C10_all_passed_no_warnings "rice" "Clayey" 100 50 50 27 85 6 220
    (by with_unfolding_all rfl) (by with_unfolding_all rfl)

end AgriSoil
